import Mathlib

set_option maxRecDepth 100000

/-!
Shallow embedding of `deploy_application_for_querying_regulatory_docs.py`:
a script that loads a JSON configuration, validates placeholder values,
issues four sequential remote calls (create application, create index,
create data source, start sync job) and writes the resulting identifiers
to `deployment_output.json`.

Python values read from the configuration file are modelled by a JSON
value type; Python exceptions are modelled by `Except PyError`; the remote
service boundary is modelled by an oracle (`Client`) whose methods return
either an identifier or an error (the extraction of the single identifier
field from each response dict is folded into the oracle, since the
response schema is owned by the external service); console printing of
validation errors is modelled by returning the list of printed messages;
the filesystem is modelled as a map from path to contents, with
open-for-write semantics replacing the contents at the path.
-/

/-- JSON values, as produced by `json.load`. -/
inductive Json where
  | str (s : String)
  | num (n : Int)
  | bool (b : Bool)
  | null
  | arr (elems : List Json)
  | obj (fields : List (String × Json))

mutual

/-- Structural equality of JSON values (the semantics of Python `==` on
values loaded from JSON: values of different types compare unequal). -/
def Json.beq : Json → Json → Bool
  | Json.str a, Json.str b => a == b
  | Json.num a, Json.num b => a == b
  | Json.bool a, Json.bool b => a == b
  | Json.null, Json.null => true
  | Json.arr xs, Json.arr ys => Json.beqList xs ys
  | Json.obj fs, Json.obj gs => Json.beqFields fs gs
  | _, _ => false

/-- Elementwise equality of JSON arrays. -/
def Json.beqList : List Json → List Json → Bool
  | [], [] => true
  | x :: xs, y :: ys => Json.beq x y && Json.beqList xs ys
  | _, _ => false

/-- Fieldwise equality of JSON objects. -/
def Json.beqFields : List (String × Json) → List (String × Json) → Bool
  | [], [] => true
  | (k, v) :: xs, (l, w) :: ys => k == l && Json.beq v w && Json.beqFields xs ys
  | _, _ => false

end

/-- Python exceptions that the script can raise. -/
inductive PyError where
  | keyError (key : String)
  | typeError (msg : String)
  | attributeError (msg : String)
  | valueError (msg : String)
  | exception (msg : String)
  | clientError (msg : String)
deriving DecidableEq

/-- Python subscript `d[k]` on a value loaded from JSON: field lookup on a
dict, `KeyError` when the key is absent, `TypeError` on non-dict values. -/
def pyGet (j : Json) (k : String) : Except PyError Json :=
  match j with
  | Json.obj fields =>
    match fields.find? (fun kv => kv.1 = k) with
    | some kv => Except.ok kv.2
    | none => Except.error (PyError.keyError k)
  | _ => Except.error (PyError.typeError "value is not subscriptable")

/-- Chained subscript `d[a][b]`. -/
def pyGet2 (j : Json) (a b : String) : Except PyError Json := do
  pyGet (← pyGet j a) b

/-- Whether `needle` occurs as a contiguous substring of the character
list `haystack` (the semantics of Python `needle in haystack` on `str`). -/
def containsAux (needle : List Char) : List Char → Bool
  | [] => needle.isEmpty
  | c :: rest => needle.isPrefixOf (c :: rest) || containsAux needle rest

/-- Python `needle in haystack` for two `str` values. -/
def pyStrContains (haystack needle : String) : Bool :=
  containsAux needle.data haystack.data

/-- Python `needle in container` where `needle` is a `str`: substring test
on a string, key membership on a dict, element membership on a list,
`TypeError` otherwise. -/
def pyIn (needle : String) (container : Json) : Except PyError Bool :=
  match container with
  | Json.str s => Except.ok (pyStrContains s needle)
  | Json.obj fields => Except.ok (fields.any (fun kv => kv.1 = needle))
  | Json.arr elems => Except.ok (elems.any (fun e => Json.beq e (Json.str needle)))
  | _ => Except.error (PyError.typeError "argument is not iterable")

/-- Python `s.startswith(p)` for two `str` values: `p` is a prefix of the
characters of `s`. -/
def pyStrStartsWith (s p : String) : Bool :=
  p.data.isPrefixOf s.data

/-- Python `v.startswith(p)`: defined on `str`, `AttributeError` otherwise. -/
def pyStartswith (v : Json) (p : String) : Except PyError Bool :=
  match v with
  | Json.str s => Except.ok (pyStrStartsWith s p)
  | _ => Except.error (PyError.attributeError "object has no attribute startswith")

/-- The account placeholder marker checked by substring in `roleArn`. -/
def accountMarker : String := "<YOUR-ACCOUNT>"

/-- The bucket-name placeholder marker. -/
def bucketMarker : String := "<YOUR-S3-BUCKET-NAME>"

/-- The IAM Identity Center ARN placeholder marker. -/
def iamMarker : String := "<YOUR-IAM-IDENTITY-CENTER-ARN>"

/-- The required prefix of `application.iamIdentityProviderArn`. -/
def ssoInstanceArnStart : String := "arn:aws:sso:::instance/"

/-- Error message appended when the account marker occurs in `roleArn`. -/
def msgRole : String :=
  "Please replace \x27<YOUR-ACCOUNT>\x27 in dataSource.roleArn with your actual AWS account ID"

/-- Error message appended when the bucket name equals its marker. -/
def msgBucket : String :=
  "Please replace \x27<YOUR-S3-BUCKET-NAME>\x27 in dataSource.configuration.additionalProperties.bucketName with your actual S3 bucket name"

/-- Error message appended when `iamIdentityProviderArn` equals its marker. -/
def msgIam : String :=
  "Please replace \x27<YOUR-IAM-IDENTITY-CENTER-ARN>\x27 in application.iamIdentityProviderArn with your actual IAM Identity Center ARN"

/-- Error message appended when `iamIdentityProviderArn` lacks the prefix. -/
def msgFormat : String := "Invalid iamIdentityProviderArn format"

/-- The subscript chain
`config[\x27dataSource\x27][\x27configuration\x27][\x27additionalProperties\x27][\x27bucketName\x27]`. -/
def bucketNameField (config : Json) : Except PyError Json := do
  pyGet (← pyGet (← pyGet2 config "dataSource" "configuration") "additionalProperties")
    "bucketName"

/-- Embedding of `AmazonQBusiness.validate_config`: accumulates the error messages of
the four placeholder checks in source order and returns the printed
messages together with the boolean result (`True` exactly when no error
was accumulated). Field accesses can raise, exactly as the Python
subscripts do. -/
def validate_config (config : Json) : Except PyError (List String × Bool) := do
  let errors0 : List String := []
  let roleArn ← pyGet2 config "dataSource" "roleArn"
  let hit1 ← pyIn accountMarker roleArn
  let errors1 := if hit1 then errors0 ++ [msgRole] else errors0
  let bucketName ← bucketNameField config
  let errors2 := if Json.beq bucketName (Json.str bucketMarker) then errors1 ++ [msgBucket] else errors1
  let iamArnFirst ← pyGet2 config "application" "iamIdentityProviderArn"
  let errors3 := if Json.beq iamArnFirst (Json.str iamMarker) then errors2 ++ [msgIam] else errors2
  let iam_arn ← pyGet2 config "application" "iamIdentityProviderArn"
  let startsOk ← pyStartswith iam_arn ssoInstanceArnStart
  let errors4 := if startsOk then errors3 else errors3 ++ [msgFormat]
  if errors4.isEmpty then
    return (errors4, true)
  else
    return (errors4, false)

/-- Parameters of the `create_application` remote call, as assembled by
`AmazonQBusiness.create_application`. -/
structure CreateApplicationParams where
  displayName : Json
  description : Json
  identityType : Json
  iamIdentityProviderArn : Json
  clientIdsForOIDC : Json
  qAppsConfiguration : Json
  personalizationConfiguration : Json
  attachmentsConfiguration : Json

/-- Parameters of the `create_index` remote call. -/
structure CreateIndexParams where
  applicationId : String
  displayName : Json
  description : Json
  type : Json
  capacityConfiguration : Json
  documentAttributeConfigurations : Json

/-- Parameters of the `create_data_source` remote call. -/
structure CreateDataSourceParams where
  applicationId : String
  indexId : String
  displayName : Json
  description : Json
  configuration : Json
  syncSchedule : Json
  roleArn : Json

/-- Parameters of the `start_data_source_sync_job` remote call. -/
structure StartSyncParams where
  applicationId : String
  indexId : String
  dataSourceId : String

/-- A remote call issued against the Q Business client, with the
parameters it was invoked with. -/
inductive RemoteCall where
  | createApplication (params : CreateApplicationParams)
  | createIndex (params : CreateIndexParams)
  | createDataSource (params : CreateDataSourceParams)
  | startDataSourceSyncJob (params : StartSyncParams)

/-- An observable event of a run: the validation pass starting, or a
remote call being issued. -/
inductive Event where
  | validation
  | call (c : RemoteCall)

/-- Oracle for the remote service boundary: each method either returns
the identifier extracted from the response (`applicationId`, `indexId`,
`dataSourceId`, `executionId` respectively — the response schema is owned
by the external service, so response-field extraction is folded into the
oracle) or raises. -/
structure Client where
  create_application : CreateApplicationParams → Except PyError String
  create_index : CreateIndexParams → Except PyError String
  create_data_source : CreateDataSourceParams → Except PyError String
  start_data_source_sync_job : StartSyncParams → Except PyError String

/-- The result mapping built by `deploy` on success. -/
structure Resources where
  applicationId : String
  indexId : String
  dataSourceId : String
  executionId : String

/-- Parameter dict built by `AmazonQBusiness.create_application` from the
`application` section; field accesses in source order, `clientIdsForOIDC`
hardcoded to the empty list. -/
def build_create_application_params (config : Json) : Except PyError CreateApplicationParams := do
  let app_config ← pyGet config "application"
  let displayName ← pyGet app_config "displayName"
  let description ← pyGet app_config "description"
  let identityType ← pyGet app_config "identityType"
  let iamIdentityProviderArn ← pyGet app_config "iamIdentityProviderArn"
  let qAppsConfiguration ← pyGet app_config "qAppsConfiguration"
  let personalizationConfiguration ← pyGet app_config "personalizationConfiguration"
  let attachmentsConfiguration ← pyGet app_config "attachmentsConfiguration"
  return { displayName := displayName
           description := description
           identityType := identityType
           iamIdentityProviderArn := iamIdentityProviderArn
           clientIdsForOIDC := Json.arr []
           qAppsConfiguration := qAppsConfiguration
           personalizationConfiguration := personalizationConfiguration
           attachmentsConfiguration := attachmentsConfiguration }

/-- Parameter dict built by `AmazonQBusiness.create_index` from the
`index` section plus the application identifier. -/
def build_create_index_params (config : Json) (application_id : String) :
    Except PyError CreateIndexParams := do
  let index_config ← pyGet config "index"
  let displayName ← pyGet index_config "displayName"
  let description ← pyGet index_config "description"
  let ty ← pyGet index_config "type"
  let capacityConfiguration ← pyGet index_config "capacityConfiguration"
  let documentAttributeConfigurations ← pyGet index_config "documentAttributeConfigurations"
  return { applicationId := application_id
           displayName := displayName
           description := description
           type := ty
           capacityConfiguration := capacityConfiguration
           documentAttributeConfigurations := documentAttributeConfigurations }

/-- Parameter dict built by `AmazonQBusiness.create_data_source` from the
`dataSource` section plus the application and index identifiers. -/
def build_create_data_source_params (config : Json) (application_id index_id : String) :
    Except PyError CreateDataSourceParams := do
  let ds_config ← pyGet config "dataSource"
  let displayName ← pyGet ds_config "displayName"
  let description ← pyGet ds_config "description"
  let configuration ← pyGet ds_config "configuration"
  let syncSchedule ← pyGet ds_config "syncSchedule"
  let roleArn ← pyGet ds_config "roleArn"
  return { applicationId := application_id
           indexId := index_id
           displayName := displayName
           description := description
           configuration := configuration
           syncSchedule := syncSchedule
           roleArn := roleArn }

/-- Embedding of `AmazonQBusiness.deploy`: validate the configuration, raising
`ValueError` when validation returns `False`; then issue the four remote
calls in sequence, each consuming the identifiers returned by the
previous ones, and return the result mapping. Returns the list of
observable events alongside the outcome; the `except` clause of the
source only prints and re-raises, leaving the outcome unchanged. -/
def deploy (config : Json) (client : Client) : List Event × Except PyError Resources :=
  match validate_config config with
  | Except.error e => ([Event.validation], Except.error e)
  | Except.ok (_, false) =>
    ([Event.validation], Except.error (PyError.valueError
      "Configuration validation failed. Please fix the errors and try again."))
  | Except.ok (_, true) =>
    match build_create_application_params config with
    | Except.error e => ([Event.validation], Except.error e)
    | Except.ok p1 =>
      match client.create_application p1 with
      | Except.error e =>
        ([Event.validation, Event.call (RemoteCall.createApplication p1)], Except.error e)
      | Except.ok application_id =>
        match build_create_index_params config application_id with
        | Except.error e =>
          ([Event.validation, Event.call (RemoteCall.createApplication p1)], Except.error e)
        | Except.ok p2 =>
          match client.create_index p2 with
          | Except.error e =>
            ([Event.validation, Event.call (RemoteCall.createApplication p1),
              Event.call (RemoteCall.createIndex p2)], Except.error e)
          | Except.ok index_id =>
            match build_create_data_source_params config application_id index_id with
            | Except.error e =>
              ([Event.validation, Event.call (RemoteCall.createApplication p1),
                Event.call (RemoteCall.createIndex p2)], Except.error e)
            | Except.ok p3 =>
              match client.create_data_source p3 with
              | Except.error e =>
                ([Event.validation, Event.call (RemoteCall.createApplication p1),
                  Event.call (RemoteCall.createIndex p2),
                  Event.call (RemoteCall.createDataSource p3)], Except.error e)
              | Except.ok data_source_id =>
                let p4 : StartSyncParams :=
                  { applicationId := application_id
                    indexId := index_id
                    dataSourceId := data_source_id }
                match client.start_data_source_sync_job p4 with
                | Except.error e =>
                  ([Event.validation, Event.call (RemoteCall.createApplication p1),
                    Event.call (RemoteCall.createIndex p2),
                    Event.call (RemoteCall.createDataSource p3),
                    Event.call (RemoteCall.startDataSourceSyncJob p4)], Except.error e)
                | Except.ok execution_id =>
                  ([Event.validation, Event.call (RemoteCall.createApplication p1),
                    Event.call (RemoteCall.createIndex p2),
                    Event.call (RemoteCall.createDataSource p3),
                    Event.call (RemoteCall.startDataSourceSyncJob p4)],
                   Except.ok { applicationId := application_id
                               indexId := index_id
                               dataSourceId := data_source_id
                               executionId := execution_id })

/-- Rendering `str(e)` of the exceptions the script raises (used when `load_config`
wraps a caught exception into a new message). -/
def PyError.toMessage : PyError → String
  | PyError.keyError k => "\x27" ++ k ++ "\x27"
  | PyError.typeError m => m
  | PyError.attributeError m => m
  | PyError.valueError m => m
  | PyError.exception m => m
  | PyError.clientError m => m

/-- The required top-level sections, in the order `load_config` checks
them. -/
def requiredSections : List String := ["aws", "application", "index", "dataSource"]

/-- The section-presence loop of `load_config`: raises `ValueError` naming
the first section `s` with `s not in config`. -/
def check_sections (config : Json) : List String → Except PyError Json
  | [] => Except.ok config
  | s :: rest => do
    let present ← pyIn s config
    if present then
      check_sections config rest
    else
      Except.error (PyError.valueError ("Missing required configuration section: " ++ s))

/-- Embedding of `AmazonQBusiness.load_config` for the fixed filename `config.json`
used by `main`. The existence of the file and the result of `json.load`
are inputs of the model. A `json.JSONDecodeError` is re-raised as
`ValueError`; every other exception raised inside the `try` block
(file-not-found, missing section) is re-raised wrapped as
`Exception("Error loading configuration: " + str(e))`. -/
def load_config (file_exists : Bool) (parsed : Except String Json) : Except PyError Json :=
  if !file_exists then
    Except.error (PyError.exception
      ("Error loading configuration: Configuration file \x27config.json\x27 not found"))
  else
    match parsed with
    | Except.error emsg =>
      Except.error (PyError.valueError ("Invalid JSON in configuration file: " ++ emsg))
    | Except.ok config =>
      match check_sections config requiredSections with
      | Except.error e =>
        Except.error (PyError.exception ("Error loading configuration: " ++ e.toMessage))
      | Except.ok config => Except.ok config

/-- A filesystem: a map from path to file contents. -/
def FS : Type := String → Option String

/-- Python `open(path, "w")` followed by a full write: truncates and
replaces whatever was at `path`. -/
def fsWrite (fs : FS) (path content : String) : FS :=
  fun p => if p = path then some content else fs p

/-- The fixed output filename used by `main`. -/
def output_file : String := "deployment_output.json"

/-- JSON string-character escaping as performed by `json.dump`. -/
def jsonEscapeChar (c : Char) : String :=
  if c = '\\' then "\\\\"
  else if c = '"' then "\\\""
  else String.singleton c

/-- Escape the characters of a string for JSON output. -/
def jsonEscape (s : String) : String :=
  String.join (s.data.map jsonEscapeChar)

/-- A JSON string literal. -/
def jsonQuote (s : String) : String := "\"" ++ jsonEscape s ++ "\""

/-- Serialization `json.dump(resources, f, indent=2)`: the insertion order of the
`resources` dict built by `deploy`, two-space indentation. -/
def serialize_resources (r : Resources) : String :=
  "\x7b\n  " ++ jsonQuote "applicationId" ++ ": " ++ jsonQuote r.applicationId ++ ",\n  "
    ++ jsonQuote "indexId" ++ ": " ++ jsonQuote r.indexId ++ ",\n  "
    ++ jsonQuote "dataSourceId" ++ ": " ++ jsonQuote r.dataSourceId ++ ",\n  "
    ++ jsonQuote "executionId" ++ ": " ++ jsonQuote r.executionId ++ "\n\x7d"

/-- Embedding of `main`: construct `AmazonQBusiness` (which loads the configuration
and builds the client for region `config["aws"]["region"]`), run
`deploy`, and on success write the serialized resources to
`deployment_output.json`; any exception is caught at the top level, the
process exits with status 1 and nothing is written. Returns the final
filesystem, the exit status and the events of the run. -/
def runMain (file_exists : Bool) (parsed : Except String Json) (client : Client) (fs : FS) :
    FS × Nat × List Event :=
  match load_config file_exists parsed with
  | Except.error _ => (fs, 1, [])
  | Except.ok config =>
    match pyGet2 config "aws" "region" with
    | Except.error _ => (fs, 1, [])
    | Except.ok _ =>
      match deploy config client with
      | (events, Except.error _) => (fs, 1, events)
      | (events, Except.ok resources) =>
        (fsWrite fs output_file (serialize_resources resources), 0, events)

/-- The error messages `validate_config` accumulates for a configuration
whose `roleArn` field is the string `roleArn`, whose bucket-name field is
the JSON value `bucketName` and whose `iamIdentityProviderArn` field is
the string `iamArn`, in the order the source appends them. -/
def checkErrors (roleArn : String) (bucketName : Json) (iamArn : String) : List String :=
  (if pyStrContains roleArn accountMarker then [msgRole] else []) ++
  (if Json.beq bucketName (Json.str bucketMarker) then [msgBucket] else []) ++
  (if iamArn == iamMarker then [msgIam] else []) ++
  (if pyStrStartsWith iamArn ssoInstanceArnStart then [] else [msgFormat])

/-- The messages printed by a `validate_config` run that returns (empty
when it raises instead). -/
def validationErrors (config : Json) : List String :=
  match validate_config config with
  | Except.ok (es, _) => es
  | Except.error _ => []

/-- A configuration document with all fields the script reads present,
parametrized by the three validated string fields (a test fixture for the
validator, mirroring the shape of `config.json`). -/
def mkConfig (roleArn bucketName iamArn : String) : Json :=
  Json.obj [
    ("aws", Json.obj [("region", Json.str "us-east-1")]),
    ("application", Json.obj [
      ("displayName", Json.str "RegulatoryDocsApp"),
      ("description", Json.str "App for querying regulatory docs"),
      ("identityType", Json.str "AWS_IAM_IDP_SAML"),
      ("iamIdentityProviderArn", Json.str iamArn),
      ("qAppsConfiguration", Json.obj [("qAppsEnabled", Json.bool true)]),
      ("personalizationConfiguration", Json.obj [("personalizationControlMode", Json.str "ENABLED")]),
      ("attachmentsConfiguration", Json.obj [("attachmentsControlMode", Json.str "ENABLED")])]),
    ("index", Json.obj [
      ("displayName", Json.str "RegulatoryDocsIndex"),
      ("description", Json.str "Index of regulatory docs"),
      ("type", Json.str "STARTER"),
      ("capacityConfiguration", Json.obj [("units", Json.num 1)]),
      ("documentAttributeConfigurations", Json.arr [])]),
    ("dataSource", Json.obj [
      ("displayName", Json.str "RegulatoryDocsSource"),
      ("description", Json.str "S3 bucket of regulatory docs"),
      ("configuration", Json.obj [
        ("type", Json.str "S3"),
        ("additionalProperties", Json.obj [("bucketName", Json.str bucketName)])]),
      ("syncSchedule", Json.str ""),
      ("roleArn", Json.str roleArn)])]

theorem containsAux_iff (n l : List Char) : containsAux n l = true ↔ n <:+: l := by
  induction l with
  | nil =>
    simp [containsAux, List.isEmpty_iff, List.infix_nil]
  | cons c t ih =>
    simp [containsAux, List.isPrefixOf_iff_prefix, ih, List.infix_cons_iff]

theorem pyStrContains_iff (h n : String) :
    pyStrContains h n = true ↔ n.data <:+: h.data :=
  containsAux_iff n.data h.data

/-- When the three validated fields are readable (with `roleArn` and
`iamIdentityProviderArn` strings), `validate_config` returns normally:
the printed messages are `checkErrors` and the boolean is true exactly
when no message was accumulated. -/
theorem validate_config_spec (config : Json) (r : String) (bv : Json) (i : String)
    (hr : pyGet2 config "dataSource" "roleArn" = Except.ok (Json.str r))
    (hb : bucketNameField config = Except.ok bv)
    (hi : pyGet2 config "application" "iamIdentityProviderArn" = Except.ok (Json.str i)) :
    validate_config config =
      Except.ok (checkErrors r bv i, (checkErrors r bv i).isEmpty) := by
  by_cases h1 : pyStrContains r accountMarker <;>
  by_cases h2 : Json.beq bv (Json.str bucketMarker) <;>
  by_cases h3 : i == iamMarker <;>
  by_cases h4 : pyStrStartsWith i ssoInstanceArnStart <;>
  simp [validate_config, checkErrors, hr, hb, hi, h1, h2, h3, h4,
    bind, Except.bind, pyIn, pyStartswith, Json.beq, pure, Except.pure]

/-- The parameter dict built by `create_index` carries the application
identifier it was given. -/
theorem build_create_index_params_applicationId (config : Json) (aid : String)
    (p : CreateIndexParams) (h : build_create_index_params config aid = Except.ok p) :
    p.applicationId = aid := by
  simp only [build_create_index_params, bind, Except.bind] at h
  repeat' split at h
  all_goals simp_all [pure, Except.pure]
  subst h
  rfl

/-- The parameter dict built by `create_data_source` carries the
application and index identifiers it was given. -/
theorem build_create_data_source_params_ids (config : Json) (aid iid : String)
    (p : CreateDataSourceParams)
    (h : build_create_data_source_params config aid iid = Except.ok p) :
    p.applicationId = aid ∧ p.indexId = iid := by
  simp only [build_create_data_source_params, bind, Except.bind] at h
  repeat' split at h
  all_goals simp_all [pure, Except.pure]
  subst h
  exact ⟨rfl, rfl⟩

/-- The parameter dict built by `create_application` always carries the
empty `clientIdsForOIDC` list. -/
theorem build_create_application_params_oidc (config : Json)
    (p : CreateApplicationParams) (h : build_create_application_params config = Except.ok p) :
    p.clientIdsForOIDC = Json.arr [] := by
  simp only [build_create_application_params, bind, Except.bind] at h
  repeat' split at h
  all_goals simp_all [pure, Except.pure]
  subst h
  rfl

/-- A fully substituted execution-role ARN. -/
def goodRoleArn : String := "arn:aws:iam::123456789012:role/QBusinessRole"

/-- A fully substituted bucket name. -/
def goodBucket : String := "regulatory-docs-bucket"

/-- A fully substituted IAM Identity Center ARN with the required prefix. -/
def goodIamArn : String := "arn:aws:sso:::instance/ssoins-1234567890abcdef"

/-- A configuration with every placeholder replaced. -/
def cfgGood : Json := mkConfig goodRoleArn goodBucket goodIamArn

/-- A client whose four calls return the identifiers A1, I1, D1, E1. -/
def clientGood : Client :=
  { create_application := fun _ => Except.ok "A1"
    create_index := fun _ => Except.ok "I1"
    create_data_source := fun _ => Except.ok "D1"
    start_data_source_sync_job := fun _ => Except.ok "E1" }

/-- The `create_application` parameters built from `cfgGood`. -/
def p1Good : CreateApplicationParams :=
  { displayName := Json.str "RegulatoryDocsApp"
    description := Json.str "App for querying regulatory docs"
    identityType := Json.str "AWS_IAM_IDP_SAML"
    iamIdentityProviderArn := Json.str goodIamArn
    clientIdsForOIDC := Json.arr []
    qAppsConfiguration := Json.obj [("qAppsEnabled", Json.bool true)]
    personalizationConfiguration := Json.obj [("personalizationControlMode", Json.str "ENABLED")]
    attachmentsConfiguration := Json.obj [("attachmentsControlMode", Json.str "ENABLED")] }

/-- The `create_index` parameters built from `cfgGood` and A1. -/
def p2Good : CreateIndexParams :=
  { applicationId := "A1"
    displayName := Json.str "RegulatoryDocsIndex"
    description := Json.str "Index of regulatory docs"
    type := Json.str "STARTER"
    capacityConfiguration := Json.obj [("units", Json.num 1)]
    documentAttributeConfigurations := Json.arr [] }

/-- The `create_data_source` parameters built from `cfgGood`, A1 and I1. -/
def p3Good : CreateDataSourceParams :=
  { applicationId := "A1"
    indexId := "I1"
    displayName := Json.str "RegulatoryDocsSource"
    description := Json.str "S3 bucket of regulatory docs"
    configuration := Json.obj [("type", Json.str "S3"),
      ("additionalProperties", Json.obj [("bucketName", Json.str goodBucket)])]
    syncSchedule := Json.str ""
    roleArn := Json.str goodRoleArn }

/-- C1: when the four remote calls return identifiers A1, I1, D1, E1 in
sequence, `deploy` issues exactly the four calls in the fixed order —
`create_application` first, `create_index` with `applicationId = A1`,
`create_data_source` with `applicationId = A1` and `indexId = I1`,
`start_data_source_sync_job` with all three identifiers — none skipped or
reordered, and returns exactly the mapping
`{applicationId: A1, indexId: I1, dataSourceId: D1, executionId: E1}`. -/
theorem deploy_issues_four_calls_in_order
    (config : Json) (client : Client) (A1 I1 D1 E1 : String)
    (p1 : CreateApplicationParams) (p2 : CreateIndexParams) (p3 : CreateDataSourceParams)
    (hv : validate_config config = Except.ok ([], true))
    (hp1 : build_create_application_params config = Except.ok p1)
    (hp2 : build_create_index_params config A1 = Except.ok p2)
    (hp3 : build_create_data_source_params config A1 I1 = Except.ok p3)
    (hc1 : ∀ q, client.create_application q = Except.ok A1)
    (hc2 : ∀ q, client.create_index q = Except.ok I1)
    (hc3 : ∀ q, client.create_data_source q = Except.ok D1)
    (hc4 : ∀ q, client.start_data_source_sync_job q = Except.ok E1) :
    deploy config client =
      ([Event.validation,
        Event.call (RemoteCall.createApplication p1),
        Event.call (RemoteCall.createIndex p2),
        Event.call (RemoteCall.createDataSource p3),
        Event.call (RemoteCall.startDataSourceSyncJob
          { applicationId := A1, indexId := I1, dataSourceId := D1 })],
       Except.ok { applicationId := A1, indexId := I1, dataSourceId := D1, executionId := E1 })
      ∧ p2.applicationId = A1 ∧ p3.applicationId = A1 ∧ p3.indexId = I1 := by
  refine ⟨?_, build_create_index_params_applicationId config A1 p2 hp2,
    (build_create_data_source_params_ids config A1 I1 p3 hp3).1,
    (build_create_data_source_params_ids config A1 I1 p3 hp3).2⟩
  simp [deploy, hv, hp1, hp2, hp3, hc1, hc2, hc3, hc4]

/-- C1 witness: the sequence property evaluated on a concrete
configuration and a concrete mocked client. -/
theorem deploy_issues_four_calls_in_order_witness :
    deploy cfgGood clientGood =
      ([Event.validation,
        Event.call (RemoteCall.createApplication p1Good),
        Event.call (RemoteCall.createIndex p2Good),
        Event.call (RemoteCall.createDataSource p3Good),
        Event.call (RemoteCall.startDataSourceSyncJob
          { applicationId := "A1", indexId := "I1", dataSourceId := "D1" })],
       Except.ok { applicationId := "A1", indexId := "I1", dataSourceId := "D1",
                   executionId := "E1" })
      ∧ p2Good.applicationId = "A1" ∧ p3Good.applicationId = "A1" ∧ p3Good.indexId = "I1" :=
  deploy_issues_four_calls_in_order cfgGood clientGood "A1" "I1" "D1" "E1"
    p1Good p2Good p3Good (by rfl) (by rfl) (by rfl) (by rfl)
    (fun _ => rfl) (fun _ => rfl) (fun _ => rfl) (fun _ => rfl)

/-- An empty filesystem. -/
def fsEmpty : FS := fun _ => none

/-- A client whose first two calls succeed with A1 and I1 and whose
`create_data_source` call raises. -/
def clientFailThird : Client :=
  { create_application := fun _ => Except.ok "A1"
    create_index := fun _ => Except.ok "I1"
    create_data_source := fun _ =>
      Except.error (PyError.clientError "An error occurred (AccessDeniedException)")
    start_data_source_sync_job := fun _ => Except.ok "E1" }

/-- C2: if the third remote call raises after the first two succeeded,
the fourth call is never issued, the run ends in that error, `main` exits
with status 1 and the filesystem is left untouched (no output file is
written). -/
theorem third_call_failure_aborts_run
    (config : Json) (client : Client) (A1 I1 : String) (rg : Json) (e : PyError)
    (p1 : CreateApplicationParams) (p2 : CreateIndexParams) (p3 : CreateDataSourceParams)
    (fs : FS)
    (hload : load_config true (Except.ok config) = Except.ok config)
    (hregion : pyGet2 config "aws" "region" = Except.ok rg)
    (hv : validate_config config = Except.ok ([], true))
    (hp1 : build_create_application_params config = Except.ok p1)
    (hp2 : build_create_index_params config A1 = Except.ok p2)
    (hp3 : build_create_data_source_params config A1 I1 = Except.ok p3)
    (hc1 : ∀ q, client.create_application q = Except.ok A1)
    (hc2 : ∀ q, client.create_index q = Except.ok I1)
    (hc3 : ∀ q, client.create_data_source q = Except.error e) :
    deploy config client =
      ([Event.validation,
        Event.call (RemoteCall.createApplication p1),
        Event.call (RemoteCall.createIndex p2),
        Event.call (RemoteCall.createDataSource p3)], Except.error e)
    ∧ runMain true (Except.ok config) client fs =
        (fs, 1,
         [Event.validation,
          Event.call (RemoteCall.createApplication p1),
          Event.call (RemoteCall.createIndex p2),
          Event.call (RemoteCall.createDataSource p3)]) := by
  have hd : deploy config client =
      ([Event.validation,
        Event.call (RemoteCall.createApplication p1),
        Event.call (RemoteCall.createIndex p2),
        Event.call (RemoteCall.createDataSource p3)], Except.error e) := by
    simp [deploy, hv, hp1, hp2, hp3, hc1, hc2, hc3]
  exact ⟨hd, by simp [runMain, hload, hregion, hd]⟩

/-- C2 witness: the abort behaviour evaluated on a concrete
configuration and a concrete client whose third call raises. -/
theorem third_call_failure_aborts_run_witness :
    deploy cfgGood clientFailThird =
      ([Event.validation,
        Event.call (RemoteCall.createApplication p1Good),
        Event.call (RemoteCall.createIndex p2Good),
        Event.call (RemoteCall.createDataSource p3Good)],
       Except.error (PyError.clientError "An error occurred (AccessDeniedException)"))
    ∧ runMain true (Except.ok cfgGood) clientFailThird fsEmpty =
        (fsEmpty, 1,
         [Event.validation,
          Event.call (RemoteCall.createApplication p1Good),
          Event.call (RemoteCall.createIndex p2Good),
          Event.call (RemoteCall.createDataSource p3Good)]) :=
  third_call_failure_aborts_run cfgGood clientFailThird "A1" "I1"
    (Json.str "us-east-1") (PyError.clientError "An error occurred (AccessDeniedException)")
    p1Good p2Good p3Good fsEmpty (by rfl) (by rfl) (by rfl) (by rfl) (by rfl) (by rfl)
    (fun _ => rfl) (fun _ => rfl) (fun _ => rfl)

/-- A configuration that passes `load_config` (all four sections present)
whose `dataSource.roleArn` holds the account placeholder but whose
`dataSource` section has no `configuration` field. -/
def cfgRoleOnly : Json :=
  Json.obj [("aws", Json.obj []), ("application", Json.obj []), ("index", Json.obj []),
    ("dataSource", Json.obj [("roleArn", Json.str "<YOUR-ACCOUNT>")])]

/-- C3 counterexample: a loaded configuration whose `roleArn` contains
the account placeholder on which `validate_config` raises `KeyError`
instead of returning false with the placeholder message. -/
theorem validate_config_raises_despite_roleArn_marker :
    load_config true (Except.ok cfgRoleOnly) = Except.ok cfgRoleOnly
    ∧ pyGet2 cfgRoleOnly "dataSource" "roleArn" = Except.ok (Json.str "<YOUR-ACCOUNT>")
    ∧ pyStrContains "<YOUR-ACCOUNT>" accountMarker = true
    ∧ validate_config cfgRoleOnly = Except.error (PyError.keyError "configuration") :=
  ⟨rfl, rfl, rfl, rfl⟩

/-- C3 (amended): for every loaded configuration whose validated fields
are readable and whose `dataSource.roleArn` contains the account
placeholder, `validate_config` returns false with the placeholder
message among its printed errors, and `deploy` raises before issuing any
remote call. -/
theorem roleArn_marker_fails_validation_and_deploy_aborts
    (config : Json) (r : String) (bv : Json) (i : String)
    (hr : pyGet2 config "dataSource" "roleArn" = Except.ok (Json.str r))
    (hb : bucketNameField config = Except.ok bv)
    (hi : pyGet2 config "application" "iamIdentityProviderArn" = Except.ok (Json.str i))
    (hcontains : pyStrContains r accountMarker = true) :
    validate_config config = Except.ok (checkErrors r bv i, false)
    ∧ msgRole ∈ checkErrors r bv i
    ∧ ∀ client, deploy config client =
        ([Event.validation],
         Except.error (PyError.valueError
           "Configuration validation failed. Please fix the errors and try again.")) := by
  have hmem : msgRole ∈ checkErrors r bv i := by
    simp [checkErrors, hcontains]
  have hempty : (checkErrors r bv i).isEmpty = false := by
    cases hc : checkErrors r bv i with
    | nil => rw [hc] at hmem; exact absurd hmem (List.not_mem_nil _)
    | cons a t => rfl
  have hv := validate_config_spec config r bv i hr hb hi
  rw [hempty] at hv
  exact ⟨hv, hmem, fun client => by simp [deploy, hv]⟩

/-- A configuration identical to a fully substituted one except that the
account placeholder is embedded inside `roleArn`. -/
def roleArnEmbedded : String := "arn:aws:iam::<YOUR-ACCOUNT>:role/QBusinessRole"

/-- The embedded-placeholder configuration. -/
def cfgEmbedded : Json := mkConfig roleArnEmbedded goodBucket goodIamArn

/-- C3 witness: the amended property evaluated on a concrete
configuration whose `roleArn` contains the placeholder. -/
theorem roleArn_marker_fails_validation_and_deploy_aborts_witness :
    validate_config cfgEmbedded =
      Except.ok (checkErrors roleArnEmbedded (Json.str goodBucket) goodIamArn, false)
    ∧ msgRole ∈ checkErrors roleArnEmbedded (Json.str goodBucket) goodIamArn
    ∧ deploy cfgEmbedded clientGood =
        ([Event.validation],
         Except.error (PyError.valueError
           "Configuration validation failed. Please fix the errors and try again.")) := by
  have h := roleArn_marker_fails_validation_and_deploy_aborts cfgEmbedded
    roleArnEmbedded (Json.str goodBucket) goodIamArn rfl rfl rfl (by rfl)
  exact ⟨h.1, h.2.1, h.2.2 clientGood⟩

/-- The first required section absent from an object configuration, in
the order `load_config` checks them. -/
def firstMissingSection (fields : List (String × Json)) : Option String :=
  requiredSections.find? (fun s => !(fields.any (fun kv => kv.1 = s)))

/-- C4: a configuration document missing at least one of the four
required sections makes `load_config` fail with an error naming the
first absent section in checking order, and the run stops there: no
validation pass and no remote call happens, `main` exits with status 1
leaving the filesystem untouched. -/
theorem load_config_reports_first_missing_section
    (fields : List (String × Json)) (s : String) (client : Client) (fs : FS)
    (h : firstMissingSection fields = some s) :
    load_config true (Except.ok (Json.obj fields)) =
      Except.error (PyError.exception
        ("Error loading configuration: " ++ ("Missing required configuration section: " ++ s)))
    ∧ runMain true (Except.ok (Json.obj fields)) client fs = (fs, 1, []) := by
  have hl : load_config true (Except.ok (Json.obj fields)) =
      Except.error (PyError.exception
        ("Error loading configuration: " ++ ("Missing required configuration section: " ++ s))) := by
    by_cases h1 : fields.any (fun kv => kv.1 = "aws") <;>
    by_cases h2 : fields.any (fun kv => kv.1 = "application") <;>
    by_cases h3 : fields.any (fun kv => kv.1 = "index") <;>
    by_cases h4 : fields.any (fun kv => kv.1 = "dataSource") <;>
    simp_all [firstMissingSection, requiredSections, load_config, check_sections, pyIn,
      PyError.toMessage, bind, Except.bind]
  exact ⟨hl, by simp [runMain, hl]⟩

/-- A configuration object with the `index` section absent. -/
def fieldsNoIndex : List (String × Json) :=
  [("aws", Json.obj []), ("application", Json.obj []), ("dataSource", Json.obj [])]

/-- C4 witness: the loader failure evaluated on a concrete configuration
missing the `index` section. -/
theorem load_config_reports_first_missing_section_witness :
    load_config true (Except.ok (Json.obj fieldsNoIndex)) =
      Except.error (PyError.exception
        ("Error loading configuration: "
          ++ ("Missing required configuration section: " ++ "index")))
    ∧ runMain true (Except.ok (Json.obj fieldsNoIndex)) clientGood fsEmpty = (fsEmpty, 1, []) :=
  load_config_reports_first_missing_section fieldsNoIndex "index" clientGood fsEmpty (by rfl)

/-- Membership of each of the four messages in the accumulated error
list is equivalent to its check's condition. -/
theorem mem_checkErrors_iff (r : String) (bv : Json) (i : String) :
    (msgRole ∈ checkErrors r bv i ↔ pyStrContains r accountMarker = true)
    ∧ (msgBucket ∈ checkErrors r bv i ↔ Json.beq bv (Json.str bucketMarker) = true)
    ∧ (msgIam ∈ checkErrors r bv i ↔ i = iamMarker)
    ∧ (msgFormat ∈ checkErrors r bv i ↔ pyStrStartsWith i ssoInstanceArnStart = false) := by
  have d12 : msgRole ≠ msgBucket := by decide
  have d13 : msgRole ≠ msgIam := by decide
  have d14 : msgRole ≠ msgFormat := by decide
  have d23 : msgBucket ≠ msgIam := by decide
  have d24 : msgBucket ≠ msgFormat := by decide
  have d34 : msgIam ≠ msgFormat := by decide
  have d21 := Ne.symm d12
  have d31 := Ne.symm d13
  have d41 := Ne.symm d14
  have d32 := Ne.symm d23
  have d42 := Ne.symm d24
  have d43 := Ne.symm d34
  by_cases h1 : pyStrContains r accountMarker <;>
  by_cases h2 : Json.beq bv (Json.str bucketMarker) <;>
  by_cases h3 : i == iamMarker <;>
  by_cases h4 : pyStrStartsWith i ssoInstanceArnStart <;>
  simp_all [checkErrors]

/-- C5 counterexample: a `roleArn` that merely embeds the account marker
(it is not equal to it) is still flagged, so the first placeholder check
is not an exact-string comparison. -/
theorem roleArn_check_not_exact_equality :
    validate_config cfgEmbedded = Except.ok ([msgRole], false)
    ∧ roleArnEmbedded ≠ accountMarker :=
  ⟨rfl, by decide⟩

/-- C5 (amended): the bucket-name and identity-provider placeholder
checks flag exactly on string equality with their markers and the format
check flags exactly when the required prefix is absent, but the account
placeholder check flags exactly when the marker occurs as a substring of
`roleArn`, not only on exact equality. -/
theorem marker_checks_mixed_semantics (r b i : String) :
    (msgRole ∈ validationErrors (mkConfig r b i) ↔ accountMarker.data <:+: r.data)
    ∧ (msgBucket ∈ validationErrors (mkConfig r b i) ↔ b = bucketMarker)
    ∧ (msgIam ∈ validationErrors (mkConfig r b i) ↔ i = iamMarker)
    ∧ (msgFormat ∈ validationErrors (mkConfig r b i) ↔ ¬ ssoInstanceArnStart.data <+: i.data) := by
  have hv := validate_config_spec (mkConfig r b i) r (Json.str b) i rfl rfl rfl
  have hm := mem_checkErrors_iff r (Json.str b) i
  have hve : validationErrors (mkConfig r b i) = checkErrors r (Json.str b) i := by
    unfold validationErrors
    rw [hv]
  rw [hve]
  refine ⟨?_, ?_, hm.2.2.1, ?_⟩
  · rw [hm.1, pyStrContains_iff]
  · rw [hm.2.1]
    simp [Json.beq]
  · rw [hm.2.2.2]
    simp [pyStrStartsWith, ← List.isPrefixOf_iff_prefix]

/-- A loaded configuration whose sections are present but empty. -/
def cfgEmptySections : Json :=
  Json.obj [("aws", Json.obj []), ("application", Json.obj []), ("index", Json.obj []),
    ("dataSource", Json.obj [])]

/-- C6 counterexample: a configuration that `load_config` accepts on
which `validate_config` raises `KeyError` instead of returning a
boolean. -/
theorem validate_config_can_raise_after_successful_load :
    load_config true (Except.ok cfgEmptySections) = Except.ok cfgEmptySections
    ∧ validate_config cfgEmptySections = Except.error (PyError.keyError "roleArn") :=
  ⟨rfl, rfl⟩

/-- C6 (amended): whenever the fields the validator reads are present
(with `roleArn` and `iamIdentityProviderArn` strings), `validate_config`
returns a boolean without raising, and the false return value is exactly
the signal that some violation was accumulated. -/
theorem validate_config_boolean_on_readable_fields
    (config : Json) (r : String) (bv : Json) (i : String)
    (hr : pyGet2 config "dataSource" "roleArn" = Except.ok (Json.str r))
    (hb : bucketNameField config = Except.ok bv)
    (hi : pyGet2 config "application" "iamIdentityProviderArn" = Except.ok (Json.str i)) :
    validate_config config =
      Except.ok (checkErrors r bv i, (checkErrors r bv i).isEmpty)
    ∧ ((checkErrors r bv i).isEmpty = false ↔ checkErrors r bv i ≠ []) := by
  refine ⟨validate_config_spec config r bv i hr hb hi, ?_⟩
  cases hc : checkErrors r bv i <;> simp

/-- C6 witness: the amended property evaluated on a concrete (failing)
configuration. -/
theorem validate_config_boolean_on_readable_fields_witness :
    validate_config cfgEmbedded =
      Except.ok (checkErrors roleArnEmbedded (Json.str goodBucket) goodIamArn,
        (checkErrors roleArnEmbedded (Json.str goodBucket) goodIamArn).isEmpty)
    ∧ ((checkErrors roleArnEmbedded (Json.str goodBucket) goodIamArn).isEmpty = false
        ↔ checkErrors roleArnEmbedded (Json.str goodBucket) goodIamArn ≠ []) :=
  validate_config_boolean_on_readable_fields cfgEmbedded roleArnEmbedded
    (Json.str goodBucket) goodIamArn rfl rfl rfl

/-- C7: a configuration whose `roleArn` does not contain the account
marker, whose bucket name differs from its marker, whose
`iamIdentityProviderArn` differs from its marker and starts with the
required prefix passes validation. -/
theorem validate_config_passes_when_placeholders_replaced
    (config : Json) (r : String) (bv : Json) (i : String)
    (hr : pyGet2 config "dataSource" "roleArn" = Except.ok (Json.str r))
    (hb : bucketNameField config = Except.ok bv)
    (hi : pyGet2 config "application" "iamIdentityProviderArn" = Except.ok (Json.str i))
    (h1 : pyStrContains r accountMarker = false)
    (h2 : Json.beq bv (Json.str bucketMarker) = false)
    (h3 : i ≠ iamMarker)
    (h4 : pyStrStartsWith i ssoInstanceArnStart = true) :
    validate_config config = Except.ok ([], true) := by
  have hv := validate_config_spec config r bv i hr hb hi
  have hc : checkErrors r bv i = [] := by
    simp [checkErrors, h1, h2, h3, h4]
  rw [hc] at hv
  exact hv

/-- C7 witness: validation success evaluated on a concrete fully
substituted configuration. -/
theorem validate_config_passes_when_placeholders_replaced_witness :
    validate_config cfgGood = Except.ok ([], true) :=
  validate_config_passes_when_placeholders_replaced cfgGood goodRoleArn
    (Json.str goodBucket) goodIamArn rfl rfl rfl (by rfl) (by rfl) (by decide) (by rfl)

/-- C8: `validate_config` evaluates all four checks, accumulates every
violation rather than stopping at the first, and when at least one
violation exists returns false together with the full printed list. -/
theorem validate_config_accumulates_every_violation
    (config : Json) (r : String) (bv : Json) (i : String)
    (hr : pyGet2 config "dataSource" "roleArn" = Except.ok (Json.str r))
    (hb : bucketNameField config = Except.ok bv)
    (hi : pyGet2 config "application" "iamIdentityProviderArn" = Except.ok (Json.str i)) :
    validate_config config = Except.ok (checkErrors r bv i, (checkErrors r bv i).isEmpty)
    ∧ (pyStrContains r accountMarker = true → msgRole ∈ checkErrors r bv i)
    ∧ (Json.beq bv (Json.str bucketMarker) = true → msgBucket ∈ checkErrors r bv i)
    ∧ (i = iamMarker → msgIam ∈ checkErrors r bv i)
    ∧ (pyStrStartsWith i ssoInstanceArnStart = false → msgFormat ∈ checkErrors r bv i)
    ∧ (checkErrors r bv i ≠ [] →
        validate_config config = Except.ok (checkErrors r bv i, false)) := by
  have hv := validate_config_spec config r bv i hr hb hi
  have hm := mem_checkErrors_iff r bv i
  refine ⟨hv, fun h => hm.1.mpr h, fun h => hm.2.1.mpr h, fun h => hm.2.2.1.mpr h,
    fun h => hm.2.2.2.mpr h, fun hne => ?_⟩
  have hempty : (checkErrors r bv i).isEmpty = false := by
    cases hc : checkErrors r bv i with
    | nil => exact absurd hc hne
    | cons a t => rfl
  rw [hempty] at hv
  exact hv

/-- A configuration violating all four checks at once. -/
def cfgAllBad : Json := mkConfig roleArnEmbedded bucketMarker iamMarker

/-- C8 witness: accumulation evaluated on a concrete configuration that
violates all four checks. -/
theorem validate_config_accumulates_every_violation_witness :
    validate_config cfgAllBad =
      Except.ok (checkErrors roleArnEmbedded (Json.str bucketMarker) iamMarker,
        (checkErrors roleArnEmbedded (Json.str bucketMarker) iamMarker).isEmpty)
    ∧ (pyStrContains roleArnEmbedded accountMarker = true →
        msgRole ∈ checkErrors roleArnEmbedded (Json.str bucketMarker) iamMarker)
    ∧ (Json.beq (Json.str bucketMarker) (Json.str bucketMarker) = true →
        msgBucket ∈ checkErrors roleArnEmbedded (Json.str bucketMarker) iamMarker)
    ∧ (iamMarker = iamMarker →
        msgIam ∈ checkErrors roleArnEmbedded (Json.str bucketMarker) iamMarker)
    ∧ (pyStrStartsWith iamMarker ssoInstanceArnStart = false →
        msgFormat ∈ checkErrors roleArnEmbedded (Json.str bucketMarker) iamMarker)
    ∧ (checkErrors roleArnEmbedded (Json.str bucketMarker) iamMarker ≠ [] →
        validate_config cfgAllBad =
          Except.ok (checkErrors roleArnEmbedded (Json.str bucketMarker) iamMarker, false)) :=
  validate_config_accumulates_every_violation cfgAllBad roleArnEmbedded
    (Json.str bucketMarker) iamMarker rfl rfl rfl

/-- C9: on successful deployment `main` writes the serialized
four-identifier mapping to the fixed filename `deployment_output.json`,
replacing whatever the filesystem held at that path (for any prior
contents, the run succeeds with exit status 0 and the file afterwards
holds exactly the new serialization). -/
theorem main_overwrites_output_file
    (config : Json) (client : Client) (fs : FS) (rg : Json)
    (tr : List Event) (res : Resources)
    (hload : load_config true (Except.ok config) = Except.ok config)
    (hregion : pyGet2 config "aws" "region" = Except.ok rg)
    (hdeploy : deploy config client = (tr, Except.ok res)) :
    runMain true (Except.ok config) client fs =
      (fsWrite fs output_file (serialize_resources res), 0, tr)
    ∧ (runMain true (Except.ok config) client fs).1 output_file
        = some (serialize_resources res) := by
  have h : runMain true (Except.ok config) client fs =
      (fsWrite fs output_file (serialize_resources res), 0, tr) := by
    simp [runMain, hload, hregion, hdeploy]
  refine ⟨h, ?_⟩
  rw [h]
  simp [fsWrite]

/-- A filesystem on which the output file already exists with unrelated
contents. -/
def fsWithOldOutput : FS :=
  fun p => if p = output_file then some "stale contents from a previous run" else none

/-- The resources returned by the mocked successful run. -/
def resGood : Resources :=
  { applicationId := "A1", indexId := "I1", dataSourceId := "D1", executionId := "E1" }

/-- The event trace of the mocked successful run. -/
def trGood : List Event :=
  [Event.validation,
   Event.call (RemoteCall.createApplication p1Good),
   Event.call (RemoteCall.createIndex p2Good),
   Event.call (RemoteCall.createDataSource p3Good),
   Event.call (RemoteCall.startDataSourceSyncJob
     { applicationId := "A1", indexId := "I1", dataSourceId := "D1" })]

/-- C9 witness: the overwrite behaviour evaluated on a filesystem where
the output file already exists. -/
theorem main_overwrites_output_file_witness :
    runMain true (Except.ok cfgGood) clientGood fsWithOldOutput =
      (fsWrite fsWithOldOutput output_file (serialize_resources resGood), 0, trGood)
    ∧ (runMain true (Except.ok cfgGood) clientGood fsWithOldOutput).1 output_file
        = some (serialize_resources resGood) :=
  main_overwrites_output_file cfgGood clientGood fsWithOldOutput
    (Json.str "us-east-1") trGood resGood (by rfl) (by rfl) (by rfl)

/-- C10: the create-application request always carries
`clientIdsForOIDC` as the empty list, whatever the configuration holds. -/
theorem create_application_sends_empty_oidc_list
    (config : Json) (p : CreateApplicationParams)
    (h : build_create_application_params config = Except.ok p) :
    p.clientIdsForOIDC = Json.arr [] :=
  build_create_application_params_oidc config p h

/-- A configuration whose `application` section carries an OIDC client
identifier list. -/
def cfgWithOidcIds : Json :=
  Json.obj [
    ("aws", Json.obj [("region", Json.str "us-east-1")]),
    ("application", Json.obj [
      ("displayName", Json.str "RegulatoryDocsApp"),
      ("description", Json.str "App for querying regulatory docs"),
      ("identityType", Json.str "AWS_IAM_IDP_OIDC"),
      ("iamIdentityProviderArn", Json.str "arn:aws:sso:::instance/ssoins-1234567890abcdef"),
      ("clientIdsForOIDC", Json.arr [Json.str "client-id-1", Json.str "client-id-2"]),
      ("qAppsConfiguration", Json.obj [("qAppsEnabled", Json.bool true)]),
      ("personalizationConfiguration", Json.obj [("personalizationControlMode", Json.str "ENABLED")]),
      ("attachmentsConfiguration", Json.obj [("attachmentsControlMode", Json.str "ENABLED")])]),
    ("index", Json.obj []),
    ("dataSource", Json.obj [])]

/-- The parameters built from the configuration that lists OIDC client
identifiers: they are dropped and the empty list is sent. -/
def pOidc : CreateApplicationParams :=
  { displayName := Json.str "RegulatoryDocsApp"
    description := Json.str "App for querying regulatory docs"
    identityType := Json.str "AWS_IAM_IDP_OIDC"
    iamIdentityProviderArn := Json.str "arn:aws:sso:::instance/ssoins-1234567890abcdef"
    clientIdsForOIDC := Json.arr []
    qAppsConfiguration := Json.obj [("qAppsEnabled", Json.bool true)]
    personalizationConfiguration := Json.obj [("personalizationControlMode", Json.str "ENABLED")]
    attachmentsConfiguration := Json.obj [("attachmentsControlMode", Json.str "ENABLED")] }

/-- C10 witness: even when the configuration file lists OIDC client
identifiers, the built request holds the empty list. -/
theorem create_application_sends_empty_oidc_list_witness :
    build_create_application_params cfgWithOidcIds = Except.ok pOidc
    ∧ pOidc.clientIdsForOIDC = Json.arr [] :=
  ⟨rfl, create_application_sends_empty_oidc_list cfgWithOidcIds pOidc rfl⟩

/-- A loaded configuration whose `roleArn` embeds the account marker but
whose `dataSource.configuration` lacks `additionalProperties`. -/
def cfgRoleNoProps : Json :=
  Json.obj [("aws", Json.obj []), ("application", Json.obj []), ("index", Json.obj []),
    ("dataSource", Json.obj [
      ("roleArn", Json.str roleArnEmbedded),
      ("configuration", Json.obj [])])]

/-- C8 counterexample: a loaded configuration on which a violation
exists (the account marker occurs in `roleArn`, so the first check has
appended its message), yet `validate_config` raises `KeyError` while
reading the bucket-name field: the remaining checks are not evaluated,
no error is printed and false is never returned. -/
theorem validate_config_stops_midway_despite_violation :
    load_config true (Except.ok cfgRoleNoProps) = Except.ok cfgRoleNoProps
    ∧ pyStrContains roleArnEmbedded accountMarker = true
    ∧ validate_config cfgRoleNoProps = Except.error (PyError.keyError "additionalProperties") :=
  ⟨rfl, rfl, rfl⟩
